import Mathlib

/-!
Verification of the picking-ticket barcode tool (`src/app.py`).

The program has three components:

* `find_item_coordinates` (app.py lines 8-23): scans the PDF's text spans and
  collects 7-9 digit tokens starting with '3' whose left edge lies at x < 200,
  recording `(page_index, trimmed_text, x, y)` tuples;
* `overlay_barcodes` (app.py lines 25-70): for each detected item, draws a white
  background rectangle and embeds a Code-128 barcode image on the item's page,
  right-aligned against a fixed US-Letter geometry (width 612pt);
* `generate_clean_barcode_sheet` (app.py lines 72-111): produces a standalone
  sheet with one label + barcode per item, starting a new page when the
  vertical cursor drops below 200pt.

The embedding below models Python strings as Lean `String`s operated on through
their character lists (Python's `str.strip`, `str.isdigit`, `str.startswith`
and `len` are modelled at the ASCII level), coordinates as rationals `ℚ`
(PDF coordinates are exact decimal constants here), and the PDF drawing
libraries (PyMuPDF, reportlab) as free constructors recording the arguments of
each drawing call.
-/

/-! ### Python string primitives -/

/-- Python `str.strip()`: remove leading and trailing whitespace
(modelled at the ASCII level on the string's character list). -/
def pyStrip (s : String) : String :=
  ⟨((s.data.dropWhile Char.isWhitespace).reverse.dropWhile Char.isWhitespace).reverse⟩

/-- Python `str.isdigit()`: non-empty and every character is a decimal digit
(ASCII model). -/
def pyIsDigit (s : String) : Bool :=
  !s.data.isEmpty && s.data.all Char.isDigit

/-- Python `str.startswith(p)`: the first `len(p)` characters equal `p`. -/
def pyStartsWith (s p : String) : Bool :=
  s.data.take p.data.length == p.data

/-- Python `len` on a string: number of characters. -/
def pyLen (s : String) : Nat :=
  s.data.length

/-! ### Data model

A parsed PDF page (PyMuPDF's `page.get_text("dict")`) exposes blocks, each
holding lines, each holding spans; a span has a text and a bounding box whose
first two components `bbox[0]`, `bbox[1]` are the left edge x and top y.
Each page also carries a drawing layer to which `overlay_barcodes` appends. -/

/-- A text span: `span["text"]`, `span["bbox"][0]`, `span["bbox"][1]`. -/
structure Span where
  text : String
  x0 : ℚ
  y0 : ℚ
  deriving DecidableEq, Repr

/-- A line of spans, as in `block.get("lines", [])`. -/
structure Line where
  spans : List Span
  deriving DecidableEq, Repr

/-- A block of lines, as in `page.get_text("dict")["blocks"]`. -/
structure Block where
  lines : List Line
  deriving DecidableEq, Repr

/-- An axis-aligned rectangle, `fitz.Rect(x0, y0, x1, y1)`. -/
structure Rect where
  x0 : ℚ
  y0 : ℚ
  x1 : ℚ
  y1 : ℚ
  deriving DecidableEq, Repr

/-- The arguments of `reportlab.graphics.barcode.code128.Code128(...)`:
the encoded value and the keyword parameters the program sets. -/
structure Code128 where
  value : String
  barHeight : ℚ
  barWidth : ℚ
  humanReadable : Bool
  deriving DecidableEq, Repr

/-- A drawing call recorded on a page's drawing layer:
`page.draw_rect(rect, color, fill)` or
`page.show_pdf_page(target_rect, img_pdf, 0)` where `img_pdf` is the one-page
PDF holding the rendered `Code128` barcode. -/
inductive DrawOp where
  | rect (r : Rect) (color fill : ℚ × ℚ × ℚ)
  | pdfPage (target : Rect) (barcode : Code128)
  deriving DecidableEq, Repr

/-- A page: its extractable text blocks and its drawing layer. -/
structure Page where
  blocks : List Block
  drawings : List DrawOp
  deriving DecidableEq, Repr

/-- A detected item tuple `(i, t, span["bbox"][0], span["bbox"][1])`
appended by `find_item_coordinates` (app.py line 22). -/
abbrev DetectedItem := Nat × String × ℚ × ℚ

/-! ### Item locator (`find_item_coordinates`, app.py lines 8-23) -/

/-- The qualification test of app.py lines 15-21:
`t = span["text"].strip()` qualifies iff
`t.isdigit() and t.startswith("3") and 7 <= len(t) <= 9 and span["bbox"][0] < 200`. -/
def qualifies (span : Span) : Bool :=
  let t := pyStrip span.text
  pyIsDigit t && pyStartsWith t "3" && decide (7 ≤ pyLen t) && decide (pyLen t ≤ 9)
    && decide (span.x0 < 200)

/-- Body of the innermost loop (app.py lines 14-22): conditionally
`coords.append((i, t, span["bbox"][0], span["bbox"][1]))`. -/
def spanStep (i : Nat) (coords : List DetectedItem) (span : Span) : List DetectedItem :=
  if qualifies span then coords ++ [(i, pyStrip span.text, span.x0, span.y0)] else coords

/-- Loop over `line.get("spans", [])` (app.py line 14). -/
def lineStep (i : Nat) (coords : List DetectedItem) (line : Line) : List DetectedItem :=
  line.spans.foldl (spanStep i) coords

/-- Loop over `block.get("lines", [])` (app.py line 13). -/
def blockStep (i : Nat) (coords : List DetectedItem) (block : Block) : List DetectedItem :=
  block.lines.foldl (lineStep i) coords

/-- Loop over `page.get_text("dict")["blocks"]` (app.py line 12). -/
def pageStep (coords : List DetectedItem) (ip : Nat × Page) : List DetectedItem :=
  ip.2.blocks.foldl (blockStep ip.1) coords

/-- `find_item_coordinates(pdf)` (app.py lines 8-23): the nested loops over
`enumerate(pdf)`, blocks, lines and spans, starting from `coords = []`. -/
def find_item_coordinates (pdf : List Page) : List DetectedItem :=
  pdf.enum.foldl pageStep []

/-! ### Functional characterisation of the locator -/

/-- The spans of a page in extraction traversal order. -/
def pageSpans (page : Page) : List Span :=
  page.blocks.flatMap fun b => b.lines.flatMap fun l => l.spans

/-- The tuple a qualifying span contributes, as an `Option`. -/
def detectSpan (i : Nat) (span : Span) : Option DetectedItem :=
  if qualifies span then some (i, pyStrip span.text, span.x0, span.y0) else none

lemma foldl_spanStep (i : Nat) (spans : List Span) (acc : List DetectedItem) :
    spans.foldl (spanStep i) acc = acc ++ spans.filterMap (detectSpan i) := by
  induction spans generalizing acc with
  | nil => simp
  | cons s rest ih =>
    by_cases h : qualifies s <;>
      simp [spanStep, detectSpan, h, ih, List.filterMap_cons]

lemma foldl_lineStep (i : Nat) (lines : List Line) (acc : List DetectedItem) :
    lines.foldl (lineStep i) acc
      = acc ++ lines.flatMap fun l => l.spans.filterMap (detectSpan i) := by
  induction lines generalizing acc with
  | nil => simp
  | cons l rest ih => simp [lineStep, foldl_spanStep, ih]

lemma foldl_blockStep (i : Nat) (blocks : List Block) (acc : List DetectedItem) :
    blocks.foldl (blockStep i) acc
      = acc ++ blocks.flatMap fun b => b.lines.flatMap fun l =>
          l.spans.filterMap (detectSpan i) := by
  induction blocks generalizing acc with
  | nil => simp
  | cons b rest ih => simp [blockStep, foldl_lineStep, ih]

/-- The locator equals a flatten of per-page, per-span filters in traversal
order: page order first, then span traversal order, no merging. -/
lemma find_eq_flatMap (pdf : List Page) :
    find_item_coordinates pdf
      = pdf.enum.flatMap fun ip => (pageSpans ip.2).filterMap (detectSpan ip.1) := by
  unfold find_item_coordinates
  have h : ∀ (l : List (Nat × Page)) (acc : List DetectedItem),
      l.foldl pageStep acc
        = acc ++ l.flatMap fun ip => (pageSpans ip.2).filterMap (detectSpan ip.1) := by
    intro l
    induction l with
    | nil => simp
    | cons p rest ih =>
      intro acc
      simp [pageStep, foldl_blockStep, ih, pageSpans, List.filterMap_flatMap]
  simpa using h pdf.enum []

/-! ### The spec-side qualification predicate (claim C1's wording) -/

/-- The qualification condition exactly as the specification words it: the
trimmed text is composed entirely of decimal digits, starts with the character
'3', has length between 7 and 9 inclusive, and the span's left-edge
x-coordinate is strictly less than 200. -/
def specQualifies (span : Span) : Prop :=
  (∀ c ∈ (pyStrip span.text).data, c.isDigit = true)
    ∧ (pyStrip span.text).data.head? = some '3'
    ∧ 7 ≤ (pyStrip span.text).data.length
    ∧ (pyStrip span.text).data.length ≤ 9
    ∧ span.x0 < 200

instance (span : Span) : Decidable (specQualifies span) := by
  unfold specQualifies; infer_instance

lemma take_one_eq_singleton {l : List Char} {a : Char} :
    l.take 1 = [a] ↔ l.head? = some a := by
  cases l <;> simp

/-- The code's boolean test agrees with the spec's wording. -/
lemma qualifies_iff_specQualifies (span : Span) :
    qualifies span = true ↔ specQualifies span := by
  unfold qualifies specQualifies pyIsDigit pyStartsWith pyLen
  simp only [Bool.and_eq_true, decide_eq_true_eq, List.all_eq_true,
    Bool.not_eq_true', beq_iff_eq]
  constructor
  · rintro ⟨⟨⟨⟨⟨-, hdig⟩, hstart⟩, hlen7⟩, hlen9⟩, hx⟩
    refine ⟨hdig, ?_, hlen7, hlen9, hx⟩
    have : (pyStrip span.text).data.take ("3".data.length) = "3".data := hstart
    simpa [take_one_eq_singleton] using this
  · rintro ⟨hdig, hstart, hlen7, hlen9, hx⟩
    refine ⟨⟨⟨⟨⟨?_, hdig⟩, ?_⟩, hlen7⟩, hlen9⟩, hx⟩
    · exact List.isEmpty_eq_false.mpr (List.ne_nil_of_length_pos (by omega))
    · show (pyStrip span.text).data.take ("3".data.length) = "3".data
      simpa [take_one_eq_singleton] using hstart

/-- `qualifies` depends only on the trimmed text and the x-coordinate. -/
lemma qualifies_congr {a b : Span} (ht : pyStrip a.text = pyStrip b.text)
    (hx : a.x0 = b.x0) : qualifies a = qualifies b := by
  unfold qualifies; rw [ht, hx]

/-- Claim C1, iff characterisation of membership used by the claim theorem. -/
lemma mem_find_iff (pdf : List Page) (i : Nat) (page : Page)
    (hpage : pdf[i]? = some page) (span : Span) (hspan : span ∈ pageSpans page) :
    (i, pyStrip span.text, span.x0, span.y0) ∈ find_item_coordinates pdf
      ↔ specQualifies span := by
  rw [find_eq_flatMap]
  constructor
  · intro hmem
    rcases List.mem_flatMap.1 hmem with ⟨ip, hip, htuple⟩
    rcases List.mem_filterMap.1 htuple with ⟨s, hs, hdet⟩
    unfold detectSpan at hdet
    by_cases hq : qualifies s
    · rw [if_pos hq] at hdet
      have h1 : ip.1 = i := congrArg Prod.fst (Option.some.inj hdet)
      have ht : pyStrip s.text = pyStrip span.text := by
        have := congrArg (fun p : DetectedItem => p.2.1) (Option.some.inj hdet)
        simpa using this
      have hx : s.x0 = span.x0 := by
        have := congrArg (fun p : DetectedItem => p.2.2.1) (Option.some.inj hdet)
        simpa using this
      rw [← qualifies_iff_specQualifies]
      rw [← qualifies_congr ht hx]
      exact hq
    · rw [if_neg hq] at hdet; exact absurd hdet (by simp)
  · intro hq
    refine List.mem_flatMap.2 ⟨(i, page), List.mem_enum_iff_getElem?.2 hpage, ?_⟩
    refine List.mem_filterMap.2 ⟨span, hspan, ?_⟩
    unfold detectSpan
    rw [if_pos ((qualifies_iff_specQualifies span).2 hq)]

/-! ### Barcode compositor, annotated mode (`overlay_barcodes`, app.py 25-70) -/

/-- The placement box of app.py lines 33-45, with the page width
(`right_edge`, fixed to 612 at line 36) kept as a parameter so that the
clamping branch of lines 43-45 can be exercised; `overlayBox` below fixes it
to the code's constant 612.

```
barcode_width_pt = 300 ; barcode_height_pt = 80 ; margin = 30
left = right_edge - barcode_width_pt - margin ; right = right_edge - margin
top = y - 25 ; bottom = top + barcode_height_pt
if left < 0: left = 0 ; right = barcode_width_pt
``` -/
def computeBox (right_edge y : ℚ) : Rect :=
  let barcode_width_pt : ℚ := 300
  let barcode_height_pt : ℚ := 80
  let margin : ℚ := 30
  let left := right_edge - barcode_width_pt - margin
  let right := right_edge - margin
  let top := y - 25
  let bottom := top + barcode_height_pt
  if left < 0 then ⟨0, top, barcode_width_pt, bottom⟩ else ⟨left, top, right, bottom⟩

/-- The placement box used by `overlay_barcodes`: `right_edge = 612`
(Letter width, app.py line 36). -/
def overlayBox (y : ℚ) : Rect :=
  computeBox 612 y

/-- The background rectangle of app.py lines 47-48: the (already clamped)
placement box expanded by `bg_margin = 15` on every side. -/
def bgRect (b : Rect) : Rect :=
  ⟨b.x0 - 15, b.y0 - 15, b.x1 + 15, b.y1 + 15⟩

/-- The Code-128 barcode the annotated mode constructs (app.py lines 54-59):
`code128.Code128(item, barHeight=barcode_height_pt - 30, barWidth=1.5,
humanReadable=True)` with `barcode_height_pt = 80`. -/
def overlayBarcode (item : String) : Code128 :=
  { value := item, barHeight := 80 - 30, barWidth := 1.5, humanReadable := true }

/-- The two drawing calls one item produces (app.py lines 49 and 68):
the white background rectangle, then the barcode sub-pdf shown at
`target_rect = fitz.Rect(left, top, right, bottom)`. -/
def overlayOps (item : String) (y : ℚ) : List DrawOp :=
  [DrawOp.rect (bgRect (overlayBox y)) (1, 1, 1) (1, 1, 1),
   DrawOp.pdfPage (overlayBox y) (overlayBarcode item)]

/-- One iteration of the `for page_index, item, x, y in items` loop
(app.py lines 30-68): look up `pdf[page_index]` and append the two drawing
calls to that page's drawing layer.  (A Python out-of-range index would raise
`IndexError`; the model leaves the document unchanged in that case, and the
theorems about the compositor assume valid page indices.) -/
def overlayOne (pdf : List Page) (it : DetectedItem) : List Page :=
  match pdf[it.1]? with
  | none => pdf
  | some page =>
      pdf.set it.1 { page with drawings := page.drawings ++ overlayOps it.2.1 it.2.2.2 }

/-- `overlay_barcodes(pdf, items)` (app.py lines 25-70): the loop over items,
returning the mutated document. -/
def overlay_barcodes (pdf : List Page) (items : List DetectedItem) : List Page :=
  items.foldl overlayOne pdf

/-! ### Barcode compositor, standalone sheet
(`generate_clean_barcode_sheet`, app.py 72-111) -/

/-- A drawing call on the reportlab canvas of the standalone sheet:
`c.drawString` of the label (after `c.setFont("Helvetica-Bold", 20)`),
or `barcode.drawOn(c, x_pos, y_pos)`. -/
inductive SheetOp where
  | label (font : String) (size : ℚ) (x y : ℚ) (text : String)
  | barcode (cfg : Code128) (x y : ℚ)
  deriving DecidableEq, Repr

/-- The Code-128 barcode the standalone sheet constructs (app.py lines 94-99):
`code128.Code128(item, barHeight=80 - 30, barWidth=1.5, humanReadable=True)`. -/
def sheetBarcode (item : String) : Code128 :=
  { value := item, barHeight := 80 - 30, barWidth := 1.5, humanReadable := true }

/-- US Letter height in points, `letter = (612, 792)`. -/
def letterHeight : ℚ := 792

/-- Drawing one item on the sheet (app.py lines 88-107): label at
`(margin, y)` with `margin = 80`, `y -= 50`, barcode drawn at `(margin, y - 70)`,
`y -= 120`.  Returns the extended page contents and the new cursor. -/
def sheetDrawItem (item : String) (y : ℚ) (cur : List SheetOp) :
    List SheetOp × ℚ :=
  let cur := cur ++ [SheetOp.label "Helvetica-Bold" 20 80 y ("Item: " ++ item)]
  let y := y - 50
  let cur := cur ++ [SheetOp.barcode (sheetBarcode item) 80 (y - 70)]
  let y := y - 120
  (cur, y)

/-- The item loop of app.py lines 83-107 together with the final `c.save()`
(line 109): `cur` is the current page's contents, `done` the finished pages;
`if y < 200: c.showPage(); y = height - 120` starts a new page before drawing. -/
def sheetGo : List DetectedItem → ℚ → List SheetOp → List (List SheetOp) →
    List (List SheetOp)
  | [], _, cur, done => done ++ [cur]
  | it :: rest, y, cur, done =>
      if y < 200 then
        let p := sheetDrawItem it.2.1 (letterHeight - 120) []
        sheetGo rest p.2 p.1 (done ++ [cur])
      else
        let p := sheetDrawItem it.2.1 y cur
        sheetGo rest p.2 p.1 done

/-- `generate_clean_barcode_sheet(items)` (app.py lines 72-111), modelled as
the list of pages of the produced PDF: the cursor starts at
`height - 120` (line 81) and the canvas is saved at the end. -/
def generate_clean_barcode_sheet (items : List DetectedItem) : List (List SheetOp) :=
  sheetGo items (letterHeight - 120) [] []

/-! ### Interactive shell (app.py lines 126-162)

`items = find_item_coordinates(pdf)`; `if not items:` an error message is
shown and neither compositor can run nor any download button appear; otherwise
the two compositor modes are offered. -/

/-- The artifacts the UI can produce for an upload: `none` when no items were
found (no compositor invoked, no download offered), otherwise the annotated
document and the standalone sheet. -/
def uiArtifacts (pdf : List Page) : Option (List Page × List (List SheetOp)) :=
  let items := find_item_coordinates pdf
  if items = [] then none
  else some (overlay_barcodes pdf items, generate_clean_barcode_sheet items)

/-! ### Frame lemmas for the annotated compositor -/

lemma overlayOne_length (pdf : List Page) (it : DetectedItem) :
    (overlayOne pdf it).length = pdf.length := by
  unfold overlayOne
  cases hit : pdf[it.1]? <;> simp

lemma overlay_barcodes_length (items : List DetectedItem) (pdf : List Page) :
    (overlay_barcodes pdf items).length = pdf.length := by
  induction items generalizing pdf with
  | nil => rfl
  | cons it rest ih =>
    have h : overlay_barcodes pdf (it :: rest) = overlay_barcodes (overlayOne pdf it) rest := rfl
    rw [h, ih, overlayOne_length]

/-- One overlay step only appends to one page's drawing layer: every page keeps
its text blocks, and its previous drawings stay a leading segment of the new
drawing layer. -/
lemma overlayOne_frame (pdf : List Page) (it : DetectedItem) (j : Nat) (page : Page)
    (hj : pdf[j]? = some page) :
    ∃ page', (overlayOne pdf it)[j]? = some page' ∧ page'.blocks = page.blocks
      ∧ ∃ extra, page'.drawings = page.drawings ++ extra := by
  unfold overlayOne
  cases hit : pdf[it.1]? with
  | none => exact ⟨page, by simpa using hj, rfl, [], by simp⟩
  | some pg =>
    by_cases hij : it.1 = j
    · subst hij
      rw [hit] at hj
      cases hj
      rcases List.getElem?_eq_some.1 hit with ⟨hlt, -⟩
      refine ⟨{ page with drawings := page.drawings ++ overlayOps it.2.1 it.2.2.2 },
        ?_, rfl, overlayOps it.2.1 it.2.2.2, rfl⟩
      simp [List.getElem?_set, hlt]
    · exact ⟨page, by simpa [List.getElem?_set, hij] using hj, rfl, [], by simp⟩

/-- The whole compositor run only appends to pages' drawing layers. -/
lemma overlay_barcodes_frame (items : List DetectedItem) (pdf : List Page)
    (j : Nat) (page : Page) (hj : pdf[j]? = some page) :
    ∃ page', (overlay_barcodes pdf items)[j]? = some page'
      ∧ page'.blocks = page.blocks
      ∧ ∃ extra, page'.drawings = page.drawings ++ extra := by
  induction items generalizing pdf page with
  | nil => exact ⟨page, hj, rfl, [], by simp⟩
  | cons it rest ih =>
    rcases overlayOne_frame pdf it j page hj with ⟨p1, h1, hb1, e1, hd1⟩
    rcases ih (overlayOne pdf it) p1 h1 with ⟨p2, h2, hb2, e2, hd2⟩
    exact ⟨p2, h2, hb2.trans hb1, e1 ++ e2, by rw [hd2, hd1, List.append_assoc]⟩

/-! ### Page count of the standalone sheet -/

/-- Invariant for the sheet loop: starting at cursor `672 - 170 * j`
(i.e. with `j ∈ {0,1,2,3}` items already placed on the current page, the
cursor having started at `792 - 120 = 672` and each item consuming
`50 + 120 = 170`), the finished document has `done.length + 1` pages plus one
further page per three items beyond the current page's remaining capacity. -/
lemma sheetGo_length (items : List DetectedItem) :
    ∀ j : Nat, j ≤ 3 → ∀ (cur : List SheetOp) (done : List (List SheetOp)),
      (sheetGo items (672 - 170 * (j : ℚ)) cur done).length
        = done.length + 1 + (items.length - (3 - j) + 2) / 3 := by
  induction items with
  | nil =>
    intro j hj cur done
    simp only [sheetGo, List.length_append, List.length_nil, List.length_cons]
    omega
  | cons it rest ih =>
    intro j hj cur done
    interval_cases j
    · rw [show (672 : ℚ) - 170 * ((0 : ℕ) : ℚ) = 672 by push_cast; ring]
      rw [sheetGo, if_neg (by norm_num)]
      simp only [sheetDrawItem]
      rw [show (672 : ℚ) - 50 - 120 = 672 - 170 * ((1 : ℕ) : ℚ) by push_cast; ring]
      rw [ih 1 (by norm_num)]
      simp only [List.length_cons]
      omega
    · rw [show (672 : ℚ) - 170 * ((1 : ℕ) : ℚ) = 502 by push_cast; ring]
      rw [sheetGo, if_neg (by norm_num)]
      simp only [sheetDrawItem]
      rw [show (502 : ℚ) - 50 - 120 = 672 - 170 * ((2 : ℕ) : ℚ) by push_cast; ring]
      rw [ih 2 (by norm_num)]
      simp only [List.length_cons]
      omega
    · rw [show (672 : ℚ) - 170 * ((2 : ℕ) : ℚ) = 332 by push_cast; ring]
      rw [sheetGo, if_neg (by norm_num)]
      simp only [sheetDrawItem]
      rw [show (332 : ℚ) - 50 - 120 = 672 - 170 * ((3 : ℕ) : ℚ) by push_cast; ring]
      rw [ih 3 (by norm_num)]
      simp only [List.length_cons]
      omega
    · rw [show (672 : ℚ) - 170 * ((3 : ℕ) : ℚ) = 162 by push_cast; ring]
      rw [sheetGo, if_pos (by norm_num)]
      simp only [sheetDrawItem, letterHeight]
      rw [show (792 : ℚ) - 120 - 50 - 120 = 672 - 170 * ((1 : ℕ) : ℚ) by push_cast; ring]
      rw [ih 1 (by norm_num)]
      simp only [List.length_cons, List.length_append, List.length_nil]
      omega

/-- `computeBox` with the let-bindings of app.py lines 33-45 folded away. -/
lemma computeBox_eq (right_edge y : ℚ) :
    computeBox right_edge y
      = if right_edge - 300 - 30 < 0 then ⟨0, y - 25, 300, y - 25 + 80⟩
        else ⟨right_edge - 300 - 30, y - 25, right_edge - 30, y - 25 + 80⟩ := rfl

/-! ### Concrete documents used as witnesses -/

/-- The span of the spec's scenario: text "312345678" at x=50, y=400. -/
def demoSpan : Span := ⟨"312345678", 50, 400⟩

/-- Page 0 of the scenario document: the qualifying span plus one
pre-existing drawing, so that preservation of existing content is visible. -/
def demoPage0 : Page :=
  ⟨[⟨[⟨[demoSpan]⟩]⟩], [DrawOp.rect ⟨0, 0, 10, 10⟩ (0, 0, 0) (0, 0, 0)]⟩

/-- Page 1 of the scenario document: a non-qualifying span only. -/
def demoPage1 : Page := ⟨[⟨[⟨[⟨"hello", 50, 100⟩]⟩]⟩], []⟩

/-- The scenario document: one qualifying span on page 0, none on page 1. -/
def demoDoc : List Page := [demoPage0, demoPage1]

/-- A document with no qualifying span at all (the leading digit is 4). -/
def demoNoItemsDoc : List Page := [⟨[⟨[⟨[⟨"412345678", 50, 400⟩]⟩]⟩], []⟩]

/-- A document where the same item number occurs in two qualifying spans. -/
def demoDupDoc : List Page :=
  [⟨[⟨[⟨[⟨"3123456", 10, 20⟩]⟩, ⟨[⟨"3123456", 10, 30⟩]⟩]⟩], []⟩]

/-- Four detected items, to exercise the standalone sheet's page break. -/
def demoItems4 : List DetectedItem :=
  [(0, "3111111", 0, 0), (0, "3222222", 0, 0), (0, "3333333", 0, 0), (0, "3444444", 0, 0)]

/-! ### Claim theorems -/

/-- C1: for every text span on every page of the document, the locator records
the span as a DetectedItem if and only if its trimmed text is composed
entirely of decimal digits, starts with '3', has length between 7 and 9
inclusive, and the span's left-edge x-coordinate is strictly less than 200;
the recorded entry carries the page index, the trimmed text, and the span's
x and y coordinates. -/
theorem C1_locator_qualification (pdf : List Page) (i : Nat) (page : Page)
    (hpage : pdf[i]? = some page) (span : Span) (hspan : span ∈ pageSpans page) :
    (i, pyStrip span.text, span.x0, span.y0) ∈ find_item_coordinates pdf
      ↔ specQualifies span :=
  mem_find_iff pdf i page hpage span hspan

/-- Witness for C1 at the scenario document and its qualifying span. -/
theorem C1_locator_qualification_witness :
    demoDoc[0]? = some demoPage0 ∧ demoSpan ∈ pageSpans demoPage0
      ∧ ((0, pyStrip demoSpan.text, demoSpan.x0, demoSpan.y0)
            ∈ find_item_coordinates demoDoc ↔ specQualifies demoSpan) :=
  ⟨rfl, by decide,
    C1_locator_qualification demoDoc 0 demoPage0 rfl demoSpan (by decide)⟩

/-- C2: the placement box satisfies `left ≥ 0` after clamping; when the
nominal right-aligned computation `page_width - 300 - 30` would be negative,
left becomes 0 and right becomes the box width 300, and the clamp activates
only in that case (with the code's fixed page width 612 the nominal left is
282 and the clamp stays inactive). -/
theorem C2_clamp_invariant (right_edge y : ℚ) :
    0 ≤ (computeBox right_edge y).x0
    ∧ (right_edge - 300 - 30 < 0 →
        (computeBox right_edge y).x0 = 0 ∧ (computeBox right_edge y).x1 = 300)
    ∧ (0 ≤ right_edge - 300 - 30 →
        computeBox right_edge y
          = ⟨right_edge - 300 - 30, y - 25, right_edge - 30, y - 25 + 80⟩)
    ∧ (overlayBox y).x0 = 282 := by
  unfold overlayBox
  rw [computeBox_eq, computeBox_eq]
  rw [if_neg (show ¬((612 : ℚ) - 300 - 30 < 0) by norm_num)]
  split_ifs with h₁
  · exact ⟨by norm_num, fun hneg => ⟨rfl, rfl⟩,
      fun hpos => absurd hpos (by linarith), by norm_num⟩
  · exact ⟨by simp only; linarith, fun hneg => absurd hneg (by linarith),
      fun hpos => rfl, by norm_num⟩

/-- Witness for C2 at a shrunk page width 300, where the clamp activates. -/
theorem C2_clamp_invariant_witness :
    ((300 : ℚ) - 300 - 30 < 0)
      ∧ (computeBox 300 400).x0 = 0 ∧ (computeBox 300 400).x1 = 300 :=
  ⟨by norm_num, (C2_clamp_invariant 300 400).2.1 (by norm_num)⟩

/-- C3: for every DetectedItem with vertical coordinate y, the annotated
placement box has top `y - 25`, bottom `y + 55`, left `612 - 300 - 30 = 282`
and right `612 - 30 = 582`; in particular for y = 300 the top is 275 and the
bottom is 355. -/
theorem C3_box_geometry :
    (∀ y : ℚ, overlayBox y = ⟨282, y - 25, 582, y + 55⟩)
    ∧ (overlayBox 300).y0 = 275 ∧ (overlayBox 300).y1 = 355 := by
  have h : ∀ y : ℚ, overlayBox y = ⟨282, y - 25, 582, y + 55⟩ := by
    intro y
    unfold overlayBox
    rw [computeBox_eq, if_neg (show ¬((612 : ℚ) - 300 - 30 < 0) by norm_num)]
    rw [show (612 : ℚ) - 300 - 30 = 282 by norm_num,
      show (612 : ℚ) - 30 = 582 by norm_num, show y - 25 + 80 = y + 55 by ring]
  exact ⟨h, by rw [h 300]; norm_num, by rw [h 300]; norm_num⟩

/-- C4: in standalone-sheet mode, a new page starts exactly when the cursor
drops below 200 before placing the next item; with the cursor starting at
`792 - 120 = 672` and each item consuming `50 + 120 = 170` points, three items
fit per page, so a non-empty list of N items produces
`ceil(N / 3) = (N + 2) / 3` pages. -/
theorem C4_sheet_page_count (items : List DetectedItem) (h : items ≠ []) :
    (generate_clean_barcode_sheet items).length = (items.length + 2) / 3 := by
  unfold generate_clean_barcode_sheet
  rw [show letterHeight - 120 = 672 - 170 * ((0 : ℕ) : ℚ) by norm_num [letterHeight]]
  rw [sheetGo_length items 0 (by norm_num)]
  have hpos : 1 ≤ items.length := List.length_pos.2 h
  simp only [List.length_nil]
  omega

/-- Witness for C4: four items produce `ceil(4/3) = 2` pages. -/
theorem C4_sheet_page_count_witness :
    demoItems4 ≠ [] ∧ (generate_clean_barcode_sheet demoItems4).length = 2 :=
  ⟨by decide, by rw [C4_sheet_page_count demoItems4 (by decide)]; decide⟩

/-- C5: in annotated mode, the Code-128 encoding of each item's text is
rendered with the bar-width parameter set to the fixed wide value
`1.5 = 3/2` and the human-readable flag (numeric text beneath the bars)
set to `true`; the bar height parameter is `80 - 30 = 50`. -/
theorem C5_annotated_barcode_params (item : String) (y : ℚ) :
    overlayOps item y
      = [DrawOp.rect (bgRect (overlayBox y)) (1, 1, 1) (1, 1, 1),
         DrawOp.pdfPage (overlayBox y)
           { value := item, barHeight := 50, barWidth := 3 / 2, humanReadable := true }] := by
  norm_num [overlayOps, overlayBarcode]

/-- C6: a document with no qualifying span makes the locator return the empty
list (no exception: the function is total), and the empty result means the
compositor is never invoked and no download artifact is produced. -/
theorem C6_no_items_no_artifact (pdf : List Page)
    (h : ∀ page ∈ pdf, ∀ span ∈ pageSpans page, ¬ specQualifies span) :
    find_item_coordinates pdf = [] ∧ uiArtifacts pdf = none := by
  have hfind : find_item_coordinates pdf = [] := by
    rw [find_eq_flatMap]
    apply List.flatMap_eq_nil_iff.2
    intro ip hip
    apply List.filterMap_eq_nil_iff.2
    intro span hspan
    have hmem : ip.2 ∈ pdf := by
      rcases List.getElem?_eq_some.1 (List.mem_enum_iff_getElem?.1 hip) with ⟨hlt, hget⟩
      exact hget ▸ List.getElem_mem hlt
    have hq : ¬ specQualifies span := h ip.2 hmem span hspan
    unfold detectSpan
    rw [if_neg fun hb => hq ((qualifies_iff_specQualifies span).1 hb)]
  refine ⟨hfind, ?_⟩
  unfold uiArtifacts
  rw [hfind]
  rfl

/-- Witness for C6 at a document whose only span starts with '4'. -/
theorem C6_no_items_no_artifact_witness :
    (∀ page ∈ demoNoItemsDoc, ∀ span ∈ pageSpans page, ¬ specQualifies span)
      ∧ find_item_coordinates demoNoItemsDoc = []
      ∧ uiArtifacts demoNoItemsDoc = none :=
  ⟨by decide, C6_no_items_no_artifact demoNoItemsDoc (by decide)⟩

/-- C7: the locator's output is the flatten, in page order and then in span
traversal order, of the per-span filters — no merging, no deduplication; in
particular the same item number in two qualifying spans yields two entries. -/
theorem C7_order_no_dedup :
    (∀ pdf : List Page,
        find_item_coordinates pdf
          = pdf.enum.flatMap fun ip => (pageSpans ip.2).filterMap (detectSpan ip.1))
    ∧ find_item_coordinates demoDupDoc
        = [(0, "3123456", 10, 20), (0, "3123456", 10, 30)] :=
  ⟨find_eq_flatMap, by decide⟩

/-- C8: on the scenario document (one qualifying span "312345678" at x=50,
y=400 on page 0), the locator returns exactly one DetectedItem and the
annotated compositor appends exactly one background rectangle and one embedded
barcode to page 0's drawing layer, leaving page 1 untouched; in general, for
items with valid page indices the compositor preserves the number of pages,
every page's text blocks, and every page's existing drawings as a leading
segment of the new drawing layer. -/
theorem C8_scenario_and_frame :
    find_item_coordinates demoDoc = [(0, "312345678", 50, 400)]
    ∧ overlay_barcodes demoDoc (find_item_coordinates demoDoc)
        = [⟨demoPage0.blocks, demoPage0.drawings
              ++ [DrawOp.rect ⟨267, 360, 597, 470⟩ (1, 1, 1) (1, 1, 1),
                  DrawOp.pdfPage ⟨282, 375, 582, 455⟩ (overlayBarcode "312345678")]⟩,
           demoPage1]
    ∧ ∀ (pdf : List Page) (items : List DetectedItem),
        (∀ it ∈ items, it.1 < pdf.length) →
        (overlay_barcodes pdf items).length = pdf.length
        ∧ ∀ (j : Nat) (page : Page), pdf[j]? = some page →
            ∃ page', (overlay_barcodes pdf items)[j]? = some page'
              ∧ page'.blocks = page.blocks
              ∧ ∃ extra, page'.drawings = page.drawings ++ extra := by
  have hfind : find_item_coordinates demoDoc = [(0, "312345678", 50, 400)] := by decide
  refine ⟨hfind, ?_, ?_⟩
  · rw [hfind]
    norm_num [overlay_barcodes, overlayOne, overlayOps, overlayBox, computeBox, bgRect,
      demoDoc, demoPage0, demoPage1]
  · intro pdf items _
    exact ⟨overlay_barcodes_length items pdf, fun j page hj =>
      overlay_barcodes_frame items pdf j page hj⟩

/-- Witness for C8's general frame part, at the scenario document. -/
theorem C8_scenario_and_frame_witness :
    (∀ it ∈ find_item_coordinates demoDoc, it.1 < demoDoc.length)
      ∧ (overlay_barcodes demoDoc (find_item_coordinates demoDoc)).length = demoDoc.length
      ∧ ∃ page', (overlay_barcodes demoDoc (find_item_coordinates demoDoc))[0]?
            = some page'
          ∧ page'.blocks = demoPage0.blocks
          ∧ ∃ extra, page'.drawings = demoPage0.drawings ++ extra := by
  have h := C8_scenario_and_frame.2.2 demoDoc (find_item_coordinates demoDoc) (by decide)
  exact ⟨by decide, h.1, h.2 0 demoPage0 rfl⟩

/-- C9: the clamp applies only to the barcode placement box, not to the
background rectangle: the background is always the (already clamped) placement
box expanded by 15 on every side, so whenever the clamped box has left = 0 the
painted background's left edge is -15, past the left page boundary. -/
theorem C9_background_not_clamped (right_edge y : ℚ) :
    bgRect (computeBox right_edge y)
      = ⟨(computeBox right_edge y).x0 - 15, (computeBox right_edge y).y0 - 15,
         (computeBox right_edge y).x1 + 15, (computeBox right_edge y).y1 + 15⟩
    ∧ ((computeBox right_edge y).x0 = 0 →
        (bgRect (computeBox right_edge y)).x0 = -15) := by
  refine ⟨rfl, fun h0 => ?_⟩
  unfold bgRect
  rw [h0]
  norm_num

/-- Witness for C9 at page width 300, where the clamp makes left = 0 and the
background's left edge is -15. -/
theorem C9_background_not_clamped_witness :
    (computeBox 300 400).x0 = 0 ∧ (bgRect (computeBox 300 400)).x0 = -15 :=
  ⟨by norm_num [computeBox], (C9_background_not_clamped 300 400).2
    (by norm_num [computeBox])⟩

/-- C10: the annotated-mode compositor and the standalone-sheet generator
construct the Code-128 barcode with identical parameters: bar height
`80 - 30 = 50`, bar width `1.5 = 3/2`, human-readable text enabled, so a given
item text yields the same encoded symbol in both output modes. -/
theorem C10_same_barcode_both_modes (item : String) :
    overlayBarcode item = sheetBarcode item
    ∧ overlayBarcode item
        = { value := item, barHeight := 50, barWidth := 3 / 2, humanReadable := true } := by
  refine ⟨rfl, ?_⟩
  norm_num [overlayBarcode]
